import Mathlib

/-!
# Verification of the VyaparaCore document-to-ledger workflow

This file is a shallow embedding, in Lean 4, of the financial core of the
VyaparaCore backend (Flask + SQLAlchemy): tax calculation, document
aggregation and rounding, stock ledger mutations, the sales-order confirm
transition, invoice voiding, credit-note application, payment creation,
allocation and cancellation, and the document sequence generator.

Modelling conventions, used throughout:

* Monetary amounts and stock quantities are modelled as exact rationals.
  The source computes with decimal.Decimal values obtained from the short
  repr of stored floats and stores results back through float().  For the
  2-decimal currency values and 3-decimal quantities in range (Numeric 15,2
  and 15,3 columns), distinct decimal values are farther apart than the
  float gap, so the Decimal-arithmetic chain behaves as exact decimal
  arithmetic; the rational embedding captures it exactly.
* The Python built-in round() on a Decimal (used for grand totals) rounds
  half to even and returns an integer; it is modelled by pyRound below.
* A SQLAlchemy model instance accepts assignments to attribute names that
  are not mapped columns: such writes create plain Python instance
  attributes, are silently ignored at flush time, and a later read of such
  a name on a freshly loaded instance raises AttributeError.  Where a route
  handler touches a non-column attribute, the embedding keeps the mapped
  columns in a record of the model's columns and keeps the instance-only
  attributes in a separate association list (pyattrs), so that both the
  persisted state and the AttributeError behaviour are represented.
-/

/-- Python round() (round half to even, as applied by the source to Decimal
totals at invoice.py:321, order.py:196 and similar sites). -/
def pyRound (q : ℚ) : ℤ :=
  let f : ℤ := ⌊q⌋
  let r : ℚ := q - (f : ℚ)
  if r < 1/2 then f
  else if 1/2 < r then f + 1
  else if f % 2 = 0 then f else f + 1

/-- A product's tax-rate record (models TaxRate as read by the routes:
cgst_rate, sgst_rate, igst_rate, cess_rate; the source reads cess via
(tax_rate.cess_rate or 0), folded into the field here). -/
structure TaxRate where
  cgst_rate : ℚ
  sgst_rate : ℚ
  igst_rate : ℚ
  cess_rate : ℚ
deriving Repr, DecidableEq

/-- One incoming line item as consumed by the invoice/order creation loops
(invoice.py:206-228, order.py:130-152): quantity, unit price, discount
percent, and the product's optional tax-rate record (none when the product
has no tax rate, in which case the line gets zero tax). -/
structure ItemInput where
  quantity : ℚ
  unit_price : ℚ
  discount_percent : ℚ
  tax_rate : Option TaxRate
deriving Repr, DecidableEq

/-- The per-line amounts computed by the tax calculator. -/
structure LineAmounts where
  taxable_amount : ℚ
  cgst_amount : ℚ
  sgst_amount : ℚ
  igst_amount : ℚ
  cess_amount : ℚ
deriving Repr, DecidableEq

/-- Per-line tax computation, shared verbatim by quotation.py calculate_tax
(lines 48-88), invoice.py:211-228 and order.py:135-152: taxable amount is
quantity times rate less the percentage discount; interstate lines get IGST
only, intrastate lines get CGST and SGST only, cess always accrues when a
tax-rate record exists; a line without a tax-rate record gets zero tax. -/
def lineTax (is_interstate : Bool) (it : ItemInput) : LineAmounts :=
  let item_subtotal := it.quantity * it.unit_price
  let item_discount := item_subtotal * it.discount_percent / 100
  let taxable := item_subtotal - item_discount
  match it.tax_rate with
  | none => ⟨taxable, 0, 0, 0, 0⟩
  | some tr =>
      if is_interstate then
        ⟨taxable, 0, 0, taxable * tr.igst_rate / 100, taxable * tr.cess_rate / 100⟩
      else
        ⟨taxable, taxable * tr.cgst_rate / 100, taxable * tr.sgst_rate / 100, 0,
          taxable * tr.cess_rate / 100⟩

/-- The document-level totals written by create_sales_order
(order.py:190-210); grand_total and round_off are the only fields derived
from rounding. -/
structure DocTotals where
  subtotal : ℚ
  total_tax : ℚ
  round_off : ℚ
  grand_total : ℚ
deriving Repr, DecidableEq

/-- Sum of a projection of the per-line amounts over the item list. -/
def sumLines (is_interstate : Bool) (items : List ItemInput)
    (f : LineAmounts → ℚ) : ℚ :=
  (items.map fun it => f (lineTax is_interstate it)).sum

/-- Document aggregation exactly as in create_sales_order
(order.py:122-210): subtotal accumulates the taxable amounts, the four tax
components are summed, the unrounded total adds shipping, packaging and
other charges, grand_total is the Python round of the unrounded total, and
round_off is the difference grand_total minus the unrounded total. -/
def salesOrderTotals (is_interstate : Bool) (items : List ItemInput)
    (shipping packaging other : ℚ) : DocTotals :=
  let subtotal := sumLines is_interstate items (·.taxable_amount)
  let total_cgst := sumLines is_interstate items (·.cgst_amount)
  let total_sgst := sumLines is_interstate items (·.sgst_amount)
  let total_igst := sumLines is_interstate items (·.igst_amount)
  let total_cess := sumLines is_interstate items (·.cess_amount)
  let total_tax := total_cgst + total_sgst + total_igst + total_cess
  let total_amount := subtotal + total_tax + shipping + packaging + other
  { subtotal := subtotal
    total_tax := total_tax
    round_off := (pyRound total_amount : ℚ) - total_amount
    grand_total := (pyRound total_amount : ℚ) }

/-- The unrounded document total that salesOrderTotals rounds. -/
def unroundedTotal (is_interstate : Bool) (items : List ItemInput)
    (shipping packaging other : ℚ) : ℚ :=
  sumLines is_interstate items (·.taxable_amount)
    + (sumLines is_interstate items (·.cgst_amount)
      + sumLines is_interstate items (·.sgst_amount)
      + sumLines is_interstate items (·.igst_amount)
      + sumLines is_interstate items (·.cess_amount))
    + shipping + packaging + other

/-- Rounding closure for the sales-order aggregator: the stored grand_total
is the Python round of the unrounded total, and grand_total minus round_off
recovers the unrounded total exactly (order.py:196-210). -/
theorem salesOrderTotals_rounding (inter : Bool) (items : List ItemInput)
    (sh pk ot : ℚ) :
    (salesOrderTotals inter items sh pk ot).grand_total
        = (pyRound (unroundedTotal inter items sh pk ot) : ℚ)
      ∧ (salesOrderTotals inter items sh pk ot).grand_total
          - (salesOrderTotals inter items sh pk ot).round_off
        = unroundedTotal inter items sh pk ot := by
  constructor
  · simp [salesOrderTotals, unroundedTotal]
  · simp [salesOrderTotals, unroundedTotal]

/-- The spec's interstate-exclusivity predicate on a line, exactly as
written in the claim: one GST side is populated with a strictly positive
amount and the other side is identically zero. -/
def gstClaimProperty (la : LineAmounts) : Prop :=
  ((0 < la.cgst_amount ∨ 0 < la.sgst_amount) ∧ la.igst_amount = 0)
    ∨ (0 < la.igst_amount ∧ la.cgst_amount = 0 ∧ la.sgst_amount = 0)

/-- C8 (counterexample): a tax-exempt line (product without a tax-rate
record, quotation.py:57-72 falls through with zero tax) has
cgst = sgst = igst = 0, so neither side of the claimed disjunction holds:
the claim fails for zero-tax lines. -/
theorem lineTax_zero_tax_counterexample :
    ¬ gstClaimProperty (lineTax false ⟨1, 100, 0, none⟩) := by
  simp [gstClaimProperty, lineTax]

/-- C8 (amended): the two GST sides are never simultaneously populated:
every line produced by the tax calculator has igst_amount = 0 or has
cgst_amount = 0 and sgst_amount = 0 (the interstate branch writes only
IGST, the intrastate branch writes only CGST/SGST, and a line without a
tax-rate record writes neither). -/
theorem lineTax_exclusive (inter : Bool) (it : ItemInput) :
    (lineTax inter it).igst_amount = 0
      ∨ ((lineTax inter it).cgst_amount = 0 ∧ (lineTax inter it).sgst_amount = 0) := by
  rcases it with ⟨q, p, d, tr⟩
  cases tr <;> cases inter <;> simp [lineTax]

/-- Decimal digit list for the Python 05d format of width 5: the digits
of n most-significant first, left-padded with zeros to width 5 (the source
renders the counter with a hardcoded 05d format at invoice.py:47,
payment.py:40, quotation.py:42). -/
def padded5 (n : Nat) : List Nat :=
  let ds := (Nat.digits 10 n).reverse
  List.replicate (5 - ds.length) 0 ++ ds

/-- The character for one decimal digit. -/
def digitChar10 (d : Nat) : Char := Char.ofNat (48 + d)

/-- The rendered document number: prefix followed by the zero-padded
counter. -/
def renderNumber (p : String) (n : Nat) : String :=
  p ++ String.mk ((padded5 n).map digitChar10)

/-- The SequenceNumber row (models/settings.py:120-137): stored prefix,
counter and pad width. -/
structure SequenceRow where
  pfx : String
  current_number : Nat
  number_length : Nat
deriving Repr, DecidableEq

/-- get_next_number (invoice.py:23-47) and get_next_payment_number
(payment.py:22-40), which share this body: if no SequenceNumber row exists
for the key, a fresh row with counter 0 is created; the counter is then
incremented by one, and the returned string is the settings prefix followed
by the counter rendered with the 05d format. -/
def getNextNumber (seq : Option SequenceRow) (p : String) : SequenceRow × String :=
  let s :=
    match seq with
    | some s => s
    | none => ⟨p, 0, 5⟩
  let s2 := { s with current_number := s.current_number + 1 }
  (s2, renderNumber p s2.current_number)

/-- k successive calls of the generator against the same key, threading the
row state; returns the final row and the issued numbers in order. -/
def issueNumbers (seq : Option SequenceRow) (p : String) : Nat → SequenceRow × List String
  | 0 =>
      (match seq with
       | some s => s
       | none => ⟨p, 0, 5⟩, [])
  | k+1 =>
      let r := getNextNumber seq p
      let rest := issueNumbers (some r.1) p k
      (rest.1, r.2 :: rest.2)

theorem ofDigits_replicate_zero (k : Nat) :
    Nat.ofDigits 10 (List.replicate k 0) = 0 := by
  induction k with
  | zero => simp [Nat.ofDigits]
  | succ k ih => simp [List.replicate_succ, Nat.ofDigits_cons, ih]

/-- Reading the padded digit list back as a decimal number recovers the
counter, so the zero-padded rendering loses no information. -/
theorem decode_padded5 (n : Nat) :
    Nat.ofDigits 10 (padded5 n).reverse = n := by
  unfold padded5
  rw [List.reverse_append, List.reverse_reverse, List.reverse_replicate]
  rw [Nat.ofDigits_append, ofDigits_replicate_zero, Nat.ofDigits_digits]
  ring

theorem digitChar10_inj_small :
    ∀ a < 10, ∀ b < 10, digitChar10 a = digitChar10 b → a = b := by
  decide

theorem padded5_mem_lt (n : Nat) : ∀ d ∈ padded5 n, d < 10 := by
  intro d hd
  unfold padded5 at hd
  rcases List.mem_append.1 hd with h | h
  · have := List.eq_of_mem_replicate h
    omega
  · exact Nat.digits_lt_base (by norm_num) (List.mem_reverse.1 h)

theorem map_digitChar10_inj :
    ∀ l1 l2 : List Nat, (∀ d ∈ l1, d < 10) → (∀ d ∈ l2, d < 10) →
      l1.map digitChar10 = l2.map digitChar10 → l1 = l2 := by
  intro l1
  induction l1 with
  | nil => intro l2 _ _ h; cases l2 <;> simp_all
  | cons a t ih =>
      intro l2 h1 h2 h
      cases l2 with
      | nil => simp_all
      | cons b t2 =>
          simp only [List.map_cons, List.cons.injEq] at h
          have ha : a = b := digitChar10_inj_small a (h1 a (by simp)) b (h2 b (by simp)) h.1
          have ht : t = t2 :=
            ih t2 (fun d hd => h1 d (by simp [hd])) (fun d hd => h2 d (by simp [hd])) h.2
          simp [ha, ht]

/-- Two distinct counters always render to distinct number strings under
the same prefix. -/
theorem renderNumber_inj (p : String) {m n : Nat}
    (h : renderNumber p m = renderNumber p n) : m = n := by
  unfold renderNumber at h
  have hdata := congrArg String.data h
  simp only [String.data_append] at hdata
  have hmap : (padded5 m).map digitChar10 = (padded5 n).map digitChar10 :=
    List.append_cancel_left hdata
  have hp : padded5 m = padded5 n :=
    map_digitChar10_inj _ _ (padded5_mem_lt m) (padded5_mem_lt n) hmap
  have := congrArg (fun l => Nat.ofDigits 10 l.reverse) hp
  simpa [decode_padded5] using this

/-- The issued numbers of k successive calls are exactly the renderings of
the k successive counter values. -/
theorem issueNumbers_spec (row : SequenceRow) (p : String) (k : Nat) :
    (issueNumbers (some row) p k).2
      = (List.range k).map (fun i => renderNumber p (row.current_number + i + 1)) := by
  induction k generalizing row with
  | zero => simp [issueNumbers]
  | succ k ih =>
      simp only [issueNumbers, getNextNumber, List.range_succ_eq_map, List.map_cons, List.map_map]
      refine congrArg₂ List.cons (by ring_nf) ?_
      rw [ih]
      apply List.map_congr_left
      intro i _
      simp only [Function.comp]
      congr 1
      omega

theorem issueNumbers_counter (row : SequenceRow) (p : String) (k : Nat) :
    (issueNumbers (some row) p k).1.current_number = row.current_number + k := by
  induction k generalizing row with
  | zero => simp [issueNumbers]
  | succ k ih =>
      simp only [issueNumbers, getNextNumber]
      rw [ih]
      simp
      omega

/-- C9: each call of the sequence generator increments current_number by
exactly one and returns the prefix followed by the zero-padded counter;
over any run of k successive calls for the same key the counters issued are
the strictly increasing values start+1, ..., start+k, and the rendered
numbers are pairwise distinct, so a number once issued is never issued
again (invoice.py:23-47, payment.py:22-40). -/
theorem getNextNumber_monotonic (row : SequenceRow) (p : String) (k : Nat) :
    (getNextNumber (some row) p).1.current_number = row.current_number + 1
      ∧ (getNextNumber (some row) p).2 = renderNumber p (row.current_number + 1)
      ∧ (issueNumbers (some row) p k).1.current_number = row.current_number + k
      ∧ (issueNumbers (some row) p k).2
          = (List.range k).map (fun i => renderNumber p (row.current_number + i + 1))
      ∧ (issueNumbers (some row) p k).2.Pairwise (· ≠ ·) := by
  refine ⟨rfl, rfl, issueNumbers_counter row p k, issueNumbers_spec row p k, ?_⟩
  rw [issueNumbers_spec, List.pairwise_map]
  have hr : (List.range k).Pairwise (· < ·) := List.pairwise_lt_range k
  refine hr.imp ?_
  intro i j hij heq
  have := renderNumber_inj p heq
  omega

/-- A Stock row (models/inventory.py:74-97): on-hand quantity, reserved
quantity, and the stored available_quantity column which the model comment
documents as quantity - reserved; columns default to 0 on a freshly created
row when not passed to the constructor. -/
structure Stock where
  quantity : ℚ
  reserved_quantity : ℚ
  available_quantity : ℚ
deriving Repr, DecidableEq

/-- The spec invariant on a stored Stock row: the denormalized
available_quantity column equals quantity - reserved_quantity. -/
def Stock.availInvariant (s : Stock) : Prop :=
  s.available_quantity = s.quantity - s.reserved_quantity

/-- The StockTransaction columns the claims talk about
(models/inventory.py:156-195). -/
structure StockTxn where
  transaction_type : String
  quantity : ℚ
  balance_before : ℚ
  balance_after : ℚ
deriving Repr, DecidableEq

/-- Purchase receipt of one line (receive_purchase_order,
order.py:1241-1284): an existing row gets quantity incremented, a missing
row is created with only quantity set (all other columns at their column
defaults); in both cases the available_quantity column is left untouched,
and one purchase StockTransaction records the before/after on-hand
balances. -/
def receiveStock (stock : Option Stock) (qty : ℚ) : Stock × StockTxn :=
  match stock with
  | some s =>
      ({ s with quantity := s.quantity + qty },
        ⟨"purchase", qty, s.quantity, s.quantity + qty⟩)
  | none =>
      (⟨qty, 0, 0⟩, ⟨"purchase", qty, 0, qty⟩)

/-- Stock adjustment of one line (create_adjustment, inventory.py:421-470):
quantity is set to the new counted value, the transaction records the
signed difference, and the available_quantity column is again left
untouched. -/
def adjustStock (stock : Option Stock) (new_qty : ℚ) : Stock × StockTxn :=
  match stock with
  | some s =>
      ({ s with quantity := new_qty },
        ⟨"adjustment", new_qty - s.quantity, s.quantity, new_qty⟩)
  | none =>
      (⟨new_qty, 0, 0⟩, ⟨"adjustment", new_qty - 0, 0, new_qty⟩)

/-- Sale deduction of one line during invoice creation
(create_invoice, invoice.py:264-309): when the invoice stems from a sales
order the matching reservation is released first, the on-hand quantity is
deducted floored at zero, and this path does recompute available_quantity
as quantity - reserved_quantity. -/
def saleDeductStock (s : Stock) (qty : ℚ) (fromSalesOrder : Bool) : Stock × StockTxn :=
  let reserved2 :=
    if fromSalesOrder then max 0 (s.reserved_quantity - min qty s.reserved_quantity)
    else s.reserved_quantity
  let q2 := max 0 (s.quantity - qty)
  (⟨q2, reserved2, q2 - reserved2⟩, ⟨"sale", qty, s.quantity, q2⟩)

/-- The invoice-sale path re-establishes the available_quantity invariant
(invoice.py:284). -/
theorem saleDeductStock_availInvariant (s : Stock) (qty : ℚ) (b : Bool) :
    ((saleDeductStock s qty b).1).availInvariant := by
  simp [saleDeductStock, Stock.availInvariant]

/-- C7: purchase receipt and stock adjustment leave the stored
available_quantity stale, breaking the invariant
available_quantity = quantity - reserved_quantity.  Receiving 10 units
into a warehouse with no prior row stores quantity 10, reserved 0 but
available_quantity 0; receiving into a consistent row (5 on hand, none
reserved, available 5) stores quantity 15 with available still 5; and
adjusting a consistent row (5 on hand, 2 reserved, available 3) to a new
count of 10 stores quantity 10 with available still 3. -/
theorem receiveStock_breaks_available_invariant :
    (receiveStock none 10).1 = ⟨10, 0, 0⟩
      ∧ ¬ (receiveStock none 10).1.availInvariant
      ∧ (receiveStock (some ⟨5, 0, 5⟩) 10).1 = ⟨15, 0, 5⟩
      ∧ ¬ (receiveStock (some ⟨5, 0, 5⟩) 10).1.availInvariant
      ∧ (adjustStock (some ⟨5, 2, 3⟩) 10).1 = ⟨10, 2, 3⟩
      ∧ ¬ (adjustStock (some ⟨5, 2, 3⟩) 10).1.availInvariant := by
  refine ⟨rfl, ?_, ?_, ?_, ?_, ?_⟩ <;>
    norm_num [receiveStock, adjustStock, Stock.availInvariant, Stock.mk.injEq]

/-- A stock-transfer request (transfer_stock, inventory.py:492-505).  The
route validates the four required fields with a falsy check, so a zero id
or a zero quantity is reported as a missing field. -/
structure TransferRequest where
  from_warehouse_id : Nat
  to_warehouse_id : Nat
  product_id : Nat
  quantity : ℚ
deriving Repr, DecidableEq

/-- A StockTransaction as written by the transfer route, including the
warehouse it touches (inventory.py:549-580). -/
structure StockTxnW where
  warehouse_id : Nat
  transaction_type : String
  quantity : ℚ
  balance_before : ℚ
  balance_after : ℚ
deriving Repr, DecidableEq

/-- On-hand quantity of an optional stock row, 0 when absent. -/
def optQty (o : Option Stock) : ℚ :=
  match o with
  | some s => s.quantity
  | none => 0

/-- transfer_stock (inventory.py:492-584): required-field falsy checks,
equal-warehouse check, product lookup, source sufficiency check
(missing row or on-hand below the requested quantity); on success the
source quantity is decremented, the destination row is incremented or
created with the transferred quantity (other columns at defaults), and two
transfer transactions record the out/in movements with before/after
balances.  Every error is returned before any mutation. -/
def transferStock (req : TransferRequest) (productFound : Bool)
    (source dest : Option Stock) :
    Except String (Stock × Stock × StockTxnW × StockTxnW) :=
  if req.from_warehouse_id = 0 then .error "from_warehouse_id is required"
  else if req.to_warehouse_id = 0 then .error "to_warehouse_id is required"
  else if req.product_id = 0 then .error "product_id is required"
  else if req.quantity = 0 then .error "quantity is required"
  else if req.from_warehouse_id = req.to_warehouse_id then
    .error "Source and destination warehouses must be different"
  else if !productFound then .error "Product not found"
  else
    match source with
    | none => .error "Insufficient stock in source warehouse"
    | some s =>
        if s.quantity < req.quantity then .error "Insufficient stock in source warehouse"
        else
          let s2 := { s with quantity := s.quantity - req.quantity }
          let d :=
            match dest with
            | some d0 => { d0 with quantity := d0.quantity + req.quantity }
            | none => (⟨req.quantity, 0, 0⟩ : Stock)
          .ok (s2, d,
            ⟨req.from_warehouse_id, "transfer", -req.quantity, s.quantity,
              s.quantity - req.quantity⟩,
            ⟨req.to_warehouse_id, "transfer", req.quantity, optQty dest,
              optQty dest + req.quantity⟩)

/-- C10 (counterexample): a request for quantity 0 between two distinct
warehouses with a sufficient source row is rejected by the falsy
required-field check, although none of the error conditions named by the
claim (missing source row, source quantity below the requested quantity,
equal warehouses) holds, so the claim's success branch fails. -/
theorem transferStock_zero_quantity_counterexample :
    transferStock ⟨1, 2, 7, 0⟩ true (some ⟨5, 0, 5⟩) none
        = .error "quantity is required"
      ∧ ¬ ((5 : ℚ) < 0) ∧ (1 : Nat) ≠ 2 := by
  refine ⟨rfl, by norm_num, by norm_num⟩

/-- C10 (amended): for a transfer request whose four required fields pass
the falsy check and whose product exists in the organization, the operation
fails (mutating nothing and creating no transactions) exactly when the
warehouses are equal, the source row is missing, or the source on-hand
quantity is below the requested quantity; otherwise it decreases the source
quantity by exactly the requested quantity, increases (or creates) the
destination by exactly that quantity, conserving the combined on-hand
total, and records an out and an in transfer transaction whose
balance_before/balance_after match the mutation. -/
theorem transferStock_spec (req : TransferRequest) (source dest : Option Stock)
    (hfw : req.from_warehouse_id ≠ 0) (htw : req.to_warehouse_id ≠ 0)
    (hp : req.product_id ≠ 0) (hq : req.quantity ≠ 0) :
    (req.from_warehouse_id = req.to_warehouse_id →
        transferStock req true source dest
          = .error "Source and destination warehouses must be different")
      ∧ (req.from_warehouse_id ≠ req.to_warehouse_id → source = none →
          transferStock req true source dest
            = .error "Insufficient stock in source warehouse")
      ∧ (∀ s, req.from_warehouse_id ≠ req.to_warehouse_id → source = some s →
          s.quantity < req.quantity →
          transferStock req true source dest
            = .error "Insufficient stock in source warehouse")
      ∧ (∀ s, req.from_warehouse_id ≠ req.to_warehouse_id → source = some s →
          ¬ s.quantity < req.quantity →
          transferStock req true source dest
            = .ok ({ s with quantity := s.quantity - req.quantity },
                { quantity := optQty dest + req.quantity
                  reserved_quantity := (dest.map (·.reserved_quantity)).getD 0
                  available_quantity := (dest.map (·.available_quantity)).getD 0 },
                ⟨req.from_warehouse_id, "transfer", -req.quantity, s.quantity,
                  s.quantity - req.quantity⟩,
                ⟨req.to_warehouse_id, "transfer", req.quantity, optQty dest,
                  optQty dest + req.quantity⟩)
            ∧ (s.quantity - req.quantity) + (optQty dest + req.quantity)
                = s.quantity + optQty dest) := by
  refine ⟨?_, ?_, ?_, ?_⟩
  · intro h
    simp [transferStock, hfw, htw, hp, hq, h]
  · intro h hs
    subst hs
    simp [transferStock, hfw, htw, hp, hq, h]
  · intro s h hs hlt
    subst hs
    simp [transferStock, hfw, htw, hp, hq, h, hlt]
  · intro s h hs hge
    subst hs
    constructor
    · cases dest with
      | none => simp [transferStock, hfw, htw, hp, hq, h, hge, optQty]
      | some d0 => simp [transferStock, hfw, htw, hp, hq, h, hge, optQty]
    · ring

/-- C10 (witness): the amended theorem applied to a concrete transfer of 4
units from warehouse 1 to warehouse 2 of product 7, with 5 units on hand at
the source and no destination row. -/
theorem transferStock_spec_witness :
    transferStock ⟨1, 2, 7, 4⟩ true (some ⟨5, 0, 5⟩) none
        = .ok ({ (⟨5, 0, 5⟩ : Stock) with quantity := (5 : ℚ) - 4 },
            { quantity := optQty none + 4
              reserved_quantity := ((none : Option Stock).map (·.reserved_quantity)).getD 0
              available_quantity := ((none : Option Stock).map (·.available_quantity)).getD 0 },
            ⟨1, "transfer", -4, 5, (5 : ℚ) - 4⟩,
            ⟨2, "transfer", 4, optQty none, optQty none + 4⟩)
      ∧ ((5 : ℚ) - 4) + (optQty none + 4) = 5 + optQty none :=
  (transferStock_spec ⟨1, 2, 7, 4⟩ (some ⟨5, 0, 5⟩) none
    (by decide) (by decide) (by decide) (by decide)).2.2.2 ⟨5, 0, 5⟩
    (by decide) rfl (by decide)

/-- Key of a Stock row within a fixed warehouse: (product_id, variant_id),
the lookup key used by confirm_sales_order (order.py:328-332). -/
abbrev StockKey := Nat × Option Nat

/-- One sales-order line as seen by the confirm transition
(order.py:319-352): its stock key, whether it is tracked (product_id set,
product found and product.track_inventory — untracked lines are skipped by
the two continue statements), the ordered quantity and the denormalized
line name used in error reports. -/
structure OrderLine where
  key : StockKey
  tracked : Bool
  quantity : ℚ
  name : String
deriving Repr, DecidableEq

/-- The Stock rows of the order's warehouse, keyed by (product, variant).
The unique constraint on stock rows means a key occurs at most once; the
update function below touches every entry with the key, mirroring the
SQLAlchemy identity map where all lookups return the same live row. -/
abbrev StockStore := List (StockKey × Stock)

def lookupStock : StockStore → StockKey → Option Stock
  | [], _ => none
  | e :: t, k => if e.1 = k then some e.2 else lookupStock t k

def updateStock : StockStore → StockKey → Stock → StockStore
  | [], _, _ => []
  | e :: t, k, s => if e.1 = k then (k, s) :: updateStock t k s else e :: updateStock t k s

/-- Available stock as computed by the confirm check (order.py:334-338):
quantity - reserved_quantity of the row, or 0 when no row exists. -/
def availOf (store : StockStore) (k : StockKey) : ℚ :=
  match lookupStock store k with
  | some s => s.quantity - s.reserved_quantity
  | none => 0

/-- One entry of the insufficient_items error payload
(order.py:340-345). -/
structure Insufficient where
  product : String
  required : ℚ
  available : ℚ
deriving Repr, DecidableEq

/-- The check phase of confirm_sales_order (order.py:319-352): every
tracked line whose available stock is below its quantity is collected. -/
def insufficientItems (store : StockStore) (lines : List OrderLine) : List Insufficient :=
  lines.filterMap fun l =>
    if l.tracked then
      if availOf store l.key < l.quantity then
        some ⟨l.name, l.quantity, availOf store l.key⟩
      else none
    else none

/-- A stock row after reserving q more units (order.py:373-375): reserved
is incremented and available_quantity is recomputed. -/
def reservedStock (s : Stock) (q : ℚ) : Stock :=
  ⟨s.quantity, s.reserved_quantity + q, s.quantity - (s.reserved_quantity + q)⟩

/-- The reservation phase (order.py:362-396), one pass over the order
lines: each tracked line increments its row's reserved_quantity and emits
one reservation StockTransaction whose before/after are the reserved
balances.  A tracked line whose captured stock object is None would make
Python raise AttributeError, modelled as the none outcome. -/
def reserveAll : StockStore → List OrderLine → Option (StockStore × List StockTxn)
  | store, [] => some (store, [])
  | store, l :: t =>
      if l.tracked then
        match lookupStock store l.key with
        | none => none
        | some s =>
            match reserveAll (updateStock store l.key (reservedStock s l.quantity)) t with
            | none => none
            | some (st, txns) =>
                some (st, ⟨"reservation", l.quantity, s.reserved_quantity,
                  s.reserved_quantity + l.quantity⟩ :: txns)
      else reserveAll store t

/-- The reservation transaction a line generates, expressed against the
pre-transition store. -/
def reservationTxn (store : StockStore) (l : OrderLine) : StockTxn :=
  let before := ((lookupStock store l.key).map (·.reserved_quantity)).getD 0
  ⟨"reservation", l.quantity, before, before + l.quantity⟩

/-- Outcome of the confirm transition (confirm_sales_order,
order.py:302-410).  invalidStatus and insufficient return before any
mutation, so they carry no store: the order stays draft and no stock row or
transaction is touched.  ok means the order was set to confirmed with the
given final store and reservation transactions. -/
inductive ConfirmOutcome where
  | invalidStatus (msg : String)
  | insufficient (items : List Insufficient)
  | crash
  | ok (store : StockStore) (txns : List StockTxn)
deriving Repr, DecidableEq

/-- confirm_sales_order (order.py:302-410): only draft orders may confirm;
with no warehouse the status flips with no stock work; otherwise the check
phase collects all insufficient lines and, if any, the whole transition
fails with that list, else the reservation phase runs. -/
def confirmSalesOrder (status : String) (warehouse : Option Nat)
    (store : StockStore) (lines : List OrderLine) : ConfirmOutcome :=
  if status ≠ "draft" then .invalidStatus "Only draft orders can be confirmed"
  else
    match warehouse with
    | none => .ok store []
    | some _ =>
        let ins := insufficientItems store lines
        if ins ≠ [] then .insufficient ins
        else
          match reserveAll store lines with
          | none => .crash
          | some (st, txns) => .ok st txns

theorem lookup_update_same (store : StockStore) (k : StockKey) (s0 s : Stock)
    (h : lookupStock store k = some s0) :
    lookupStock (updateStock store k s) k = some s := by
  induction store with
  | nil => simp [lookupStock] at h
  | cons e t ih =>
      by_cases he : e.1 = k
      · simp [lookupStock, updateStock, he]
      · simp [lookupStock, updateStock, he] at h ⊢
        exact ih h

theorem lookup_update_other (store : StockStore) (k k2 : StockKey) (s : Stock)
    (h : k2 ≠ k) : lookupStock (updateStock store k s) k2 = lookupStock store k2 := by
  induction store with
  | nil => simp [updateStock]
  | cons e t ih =>
      by_cases he : e.1 = k
      · simp [lookupStock, updateStock, he, Ne.symm h]
        exact ih
      · simp only [updateStock, he, if_false, lookupStock]
        by_cases he2 : e.1 = k2 <;> simp [he2, ih]

/-- Full characterization of the reservation phase when every tracked line
has a stock row and tracked keys are distinct: it succeeds, emits exactly
one reservation transaction per tracked line (with the pre-transition
reserved balance as before/after), increments each tracked row's
reserved_quantity by the line quantity, and leaves every other row
untouched. -/
theorem reserveAll_spec (lines : List OrderLine) : ∀ (store : StockStore),
    (∀ l ∈ lines, l.tracked = true → ∃ s, lookupStock store l.key = some s) →
    ((lines.filter (·.tracked)).Pairwise (fun a b => a.key ≠ b.key)) →
    ∃ st txns, reserveAll store lines = some (st, txns)
      ∧ txns = (lines.filter (·.tracked)).map (reservationTxn store)
      ∧ (∀ l ∈ lines, l.tracked = true →
          lookupStock st l.key
            = (lookupStock store l.key).map (fun s => reservedStock s l.quantity))
      ∧ (∀ k, (∀ l ∈ lines, l.tracked = true → l.key ≠ k) →
          lookupStock st k = lookupStock store k) := by
  induction lines with
  | nil =>
      intro store _ _
      exact ⟨store, [], rfl, by simp, by simp, fun k _ => rfl⟩
  | cons l t ih =>
      intro store hpres hdist
      by_cases hl : l.tracked
      · obtain ⟨s, hs⟩ := hpres l (by simp) hl
        have hdc : (∀ a ∈ t, a.tracked = true → ¬ l.key = a.key)
            ∧ (t.filter (·.tracked)).Pairwise (fun a b => a.key ≠ b.key) := by
          simpa [List.filter_cons, hl] using hdist
        have hdt : ∀ l2 ∈ t, l2.tracked = true → l2.key ≠ l.key := by
          intro l2 hl2 htr hk
          exact hdc.1 l2 hl2 htr hk.symm
        have hpres2 : ∀ l2 ∈ t, l2.tracked = true →
            ∃ s2, lookupStock (updateStock store l.key (reservedStock s l.quantity)) l2.key
              = some s2 := by
          intro l2 hl2 htr
          obtain ⟨s2, hs2⟩ := hpres l2 (by simp [hl2]) htr
          rw [lookup_update_other _ _ _ _ (hdt l2 hl2 htr)]
          exact ⟨s2, hs2⟩
        obtain ⟨st, txns, hrun, htxns, hfin, hother⟩ :=
          ih (updateStock store l.key (reservedStock s l.quantity)) hpres2 hdc.2
        refine ⟨st, ⟨"reservation", l.quantity, s.reserved_quantity,
          s.reserved_quantity + l.quantity⟩ :: txns, ?_, ?_, ?_, ?_⟩
        · simp only [reserveAll, hl, if_true, hs, hrun]
        · have hfc : (l :: t).filter (·.tracked) = l :: t.filter (·.tracked) := by
            simp [List.filter_cons, hl]
          rw [hfc, List.map_cons]
          refine congrArg₂ List.cons ?_ ?_
          · simp [reservationTxn, hs]
          · rw [htxns]
            apply List.map_congr_left
            intro l2 hl2
            have htr : l2.tracked = true := by
              have := (List.mem_filter.1 hl2).2
              simpa using this
            have hne : l2.key ≠ l.key := hdt l2 (List.mem_filter.1 hl2).1 htr
            simp [reservationTxn, lookup_update_other _ _ _ _ hne]
        · intro l2 hl2 htr
          rcases List.mem_cons.1 hl2 with rfl | hmem
          · rw [hother l2.key (fun l3 hl3 htr3 => hdt l3 hl3 htr3),
              lookup_update_same _ _ s _ hs, hs]
            rfl
          · rw [hfin l2 hmem htr, lookup_update_other _ _ _ _ (hdt l2 hmem htr)]
        · intro k hk
          rw [hother k (fun l3 hl3 htr3 => hk l3 (by simp [hl3]) htr3)]
          exact lookup_update_other _ _ _ _ (Ne.symm (hk l (by simp) hl))
      · have hlf : l.tracked = false := by simpa using hl
        obtain ⟨st, txns, hrun, htxns, hfin, hother⟩ :=
          ih store (fun l2 h2 htr => hpres l2 (by simp [h2]) htr)
            (by simpa [List.filter_cons, hlf] using hdist)
        refine ⟨st, txns, ?_, ?_, ?_, ?_⟩
        · simp [reserveAll, hlf, hrun]
        · simpa [List.filter_cons, hlf] using htxns
        · intro l3 hl3 htr
          rcases List.mem_cons.1 hl3 with rfl | hmem
          · rw [htr] at hlf
            exact absurd hlf (by simp)
          · exact hfin l3 hmem htr
        · intro k hk
          exact hother k (fun l3 hl3 htr3 => hk l3 (by simp [hl3]) htr3)

/-- The insufficient list is the map over the filter of the lines: every
insufficient tracked line is reported, in order. -/
theorem insufficientItems_eq (store : StockStore) (lines : List OrderLine) :
    insufficientItems store lines
      = (lines.filter fun l => l.tracked && decide (availOf store l.key < l.quantity)).map
          (fun l => ⟨l.name, l.quantity, availOf store l.key⟩) := by
  induction lines with
  | nil => rfl
  | cons l t ih =>
      by_cases hl : l.tracked
      · by_cases hlt : availOf store l.key < l.quantity
        · simp [insufficientItems, List.filter_cons, hl, hlt] at ih ⊢
          exact ih
        · simp [insufficientItems, List.filter_cons, hl, hlt] at ih ⊢
          exact ih
      · simp [insufficientItems, List.filter_cons, hl] at ih ⊢
        exact ih

/-- C2: confirming a draft sales order with a warehouse either fails as a
whole — when some tracked line's available stock is below its quantity, the
outcome is the insufficient error listing every such line (the filter of
all of them, not just the first), carrying no mutation — or reserves stock
for every tracked line: one reservation StockTransaction per tracked line,
each tracked row's reserved_quantity incremented by exactly its line
quantity, every other row untouched.  Hypotheses: tracked lines have
positive quantities (a zero-quantity tracked line without a stock row would
crash the reservation loop on Python None access), and tracked lines
reference pairwise distinct stock rows. -/
theorem confirmSalesOrder_atomic (store : StockStore) (lines : List OrderLine) (w : Nat)
    (hqty : ∀ l ∈ lines, l.tracked = true → 0 < l.quantity)
    (hkeys : (lines.filter (·.tracked)).Pairwise (fun a b => a.key ≠ b.key)) :
    ((∃ l ∈ lines, l.tracked = true ∧ availOf store l.key < l.quantity) →
        confirmSalesOrder "draft" (some w) store lines
            = .insufficient (insufficientItems store lines)
          ∧ insufficientItems store lines
              = (lines.filter fun l => l.tracked && decide (availOf store l.key < l.quantity)).map
                  (fun l => ⟨l.name, l.quantity, availOf store l.key⟩))
      ∧ ((∀ l ∈ lines, l.tracked = true → ¬ availOf store l.key < l.quantity) →
          ∃ st txns, confirmSalesOrder "draft" (some w) store lines = .ok st txns
            ∧ txns = (lines.filter (·.tracked)).map (reservationTxn store)
            ∧ (∀ l ∈ lines, l.tracked = true →
                lookupStock st l.key
                  = (lookupStock store l.key).map (fun s => reservedStock s l.quantity))
            ∧ (∀ k, (∀ l ∈ lines, l.tracked = true → l.key ≠ k) →
                lookupStock st k = lookupStock store k)) := by
  constructor
  · rintro ⟨l, hmem, htr, hlt⟩
    have hin : (⟨l.name, l.quantity, availOf store l.key⟩ : Insufficient)
        ∈ insufficientItems store lines := by
      apply List.mem_filterMap.2
      exact ⟨l, hmem, by simp [htr, hlt]⟩
    have hne : insufficientItems store lines ≠ [] := List.ne_nil_of_mem hin
    constructor
    · simp [confirmSalesOrder, hne]
    · exact insufficientItems_eq store lines
  · intro hsuff
    have hins : insufficientItems store lines = [] := by
      rw [insufficientItems_eq]
      have hf : lines.filter (fun l => l.tracked && decide (availOf store l.key < l.quantity))
          = [] := by
        apply List.filter_eq_nil_iff.2
        intro l hmem
        by_cases htr : l.tracked
        · simp [htr, hsuff l hmem htr]
        · simp [htr]
      simp [hf]
    have hpres : ∀ l ∈ lines, l.tracked = true → ∃ s, lookupStock store l.key = some s := by
      intro l hmem htr
      cases hcase : lookupStock store l.key with
      | some s => exact ⟨s, rfl⟩
      | none =>
          exfalso
          apply hsuff l hmem htr
          have h0 : availOf store l.key = 0 := by simp [availOf, hcase]
          rw [h0]
          exact hqty l hmem htr
    obtain ⟨st, txns, hrun, htxns, hfin, hother⟩ := reserveAll_spec lines store hpres hkeys
    refine ⟨st, txns, ?_, htxns, hfin, hother⟩
    simp [confirmSalesOrder, hins, hrun]

/-- C2 (witness): the confirm theorem applied to a one-line draft order for
3 units of product 1 with 10 on hand and 2 reserved in warehouse 1. -/
theorem confirmSalesOrder_atomic_witness :
    (∀ l ∈ [(⟨(1, none), true, 3, "Widget"⟩ : OrderLine)], l.tracked = true → 0 < l.quantity)
      ∧ (([(⟨(1, none), true, 3, "Widget"⟩ : OrderLine)].filter (·.tracked)).Pairwise
          (fun a b => a.key ≠ b.key))
      ∧ (((∃ l ∈ [(⟨(1, none), true, 3, "Widget"⟩ : OrderLine)], l.tracked = true
              ∧ availOf [((1, none), ⟨10, 2, 8⟩)] l.key < l.quantity) →
            confirmSalesOrder "draft" (some 1) [((1, none), ⟨10, 2, 8⟩)]
                [⟨(1, none), true, 3, "Widget"⟩]
                = .insufficient (insufficientItems [((1, none), ⟨10, 2, 8⟩)]
                    [⟨(1, none), true, 3, "Widget"⟩])
              ∧ insufficientItems [((1, none), ⟨10, 2, 8⟩)] [⟨(1, none), true, 3, "Widget"⟩]
                  = ([(⟨(1, none), true, 3, "Widget"⟩ : OrderLine)].filter fun l =>
                      l.tracked && decide (availOf [((1, none), ⟨10, 2, 8⟩)] l.key < l.quantity)).map
                      (fun l => ⟨l.name, l.quantity, availOf [((1, none), ⟨10, 2, 8⟩)] l.key⟩))
          ∧ ((∀ l ∈ [(⟨(1, none), true, 3, "Widget"⟩ : OrderLine)], l.tracked = true →
                ¬ availOf [((1, none), ⟨10, 2, 8⟩)] l.key < l.quantity) →
              ∃ st txns, confirmSalesOrder "draft" (some 1) [((1, none), ⟨10, 2, 8⟩)]
                    [⟨(1, none), true, 3, "Widget"⟩] = .ok st txns
                ∧ txns = ([(⟨(1, none), true, 3, "Widget"⟩ : OrderLine)].filter (·.tracked)).map
                    (reservationTxn [((1, none), ⟨10, 2, 8⟩)])
                ∧ (∀ l ∈ [(⟨(1, none), true, 3, "Widget"⟩ : OrderLine)], l.tracked = true →
                    lookupStock st l.key
                      = (lookupStock [((1, none), ⟨10, 2, 8⟩)] l.key).map
                          (fun s => reservedStock s l.quantity))
                ∧ (∀ k, (∀ l ∈ [(⟨(1, none), true, 3, "Widget"⟩ : OrderLine)],
                      l.tracked = true → l.key ≠ k) →
                    lookupStock st k = lookupStock [((1, none), ⟨10, 2, 8⟩)] k))) :=
  ⟨by decide, by decide,
    confirmSalesOrder_atomic [((1, none), ⟨10, 2, 8⟩)] [⟨(1, none), true, 3, "Widget"⟩] 1
      (by decide) (by decide)⟩

/-- The Invoice model columns relevant to the claims
(models/invoice.py:78-121); a freshly constructed row has the column
defaults: all amounts 0, status draft, payment_status unpaid. -/
structure InvoiceRow where
  subtotal : ℚ
  discount_amount : ℚ
  cgst_amount : ℚ
  sgst_amount : ℚ
  igst_amount : ℚ
  cess_amount : ℚ
  total_tax : ℚ
  shipping_charges : ℚ
  packaging_charges : ℚ
  other_charges : ℚ
  round_off : ℚ
  grand_total : ℚ
  paid_amount : ℚ
  credit_note_amount : ℚ
  balance_due : ℚ
  status : String
  payment_status : String
deriving Repr, DecidableEq

/-- Column defaults of a new Invoice (models/invoice.py). -/
def InvoiceRow.new : InvoiceRow :=
  ⟨0, 0, 0, 0, 0, 0, 0, 0, 0, 0, 0, 0, 0, 0, 0, "draft", "unpaid"⟩

/-- A SQLAlchemy Invoice instance: the mapped columns plus the plain
instance attributes created by assignments to names that are not columns.
Only row is persisted; a freshly loaded instance has pyattrs = [] and
reading a non-column attribute on it raises AttributeError. -/
structure InvoiceInstance where
  row : InvoiceRow
  pyattrs : List (String × ℚ)
deriving Repr, DecidableEq

/-- Python attribute read of a non-column name: succeeds only if the same
in-memory instance assigned it earlier. -/
def getPyAttr (inst : InvoiceInstance) (name : String) : Option ℚ :=
  inst.pyattrs.lookup name

/-- The per-line discount accumulated into total_discount
(invoice.py:215-216). -/
def itemDiscount (it : ItemInput) : ℚ :=
  it.quantity * it.unit_price * it.discount_percent / 100

/-- create_invoice totals (invoice.py:194-341), persisted-state semantics.
The handler computes the same totals as the sales-order path, but writes
three of them to attribute names that are not Invoice columns:
total_discount (column is discount_amount, line 325), tax_amount (column is
total_tax, line 330) and total_amount (column is grand_total, line 335).
Those writes land in the instance's plain attributes and are dropped at
flush, so the persisted discount_amount, total_tax and grand_total keep
their column defaults of 0, while round_off and balance_due (real columns,
lines 334 and 336) are persisted, and the customer's outstanding_amount is
increased by the rounded final total (line 339). -/
def createInvoice (inter : Bool) (items : List ItemInput)
    (shipping packaging other customerOutstanding : ℚ) : InvoiceInstance × ℚ :=
  let subtotal := sumLines inter items (·.taxable_amount)
  let total_discount := (items.map itemDiscount).sum
  let total_cgst := sumLines inter items (·.cgst_amount)
  let total_sgst := sumLines inter items (·.sgst_amount)
  let total_igst := sumLines inter items (·.igst_amount)
  let total_cess := sumLines inter items (·.cess_amount)
  let total_tax := total_cgst + total_sgst + total_igst + total_cess
  let total_amount := subtotal + total_tax + shipping + packaging + other
  let round_off := (pyRound total_amount : ℚ) - total_amount
  let final_total := (pyRound total_amount : ℚ)
  let row := { InvoiceRow.new with
    subtotal := subtotal
    cgst_amount := total_cgst
    sgst_amount := total_sgst
    igst_amount := total_igst
    cess_amount := total_cess
    shipping_charges := shipping
    packaging_charges := packaging
    other_charges := other
    round_off := round_off
    balance_due := final_total }
  ({ row := row
     pyattrs := [("total_discount", total_discount), ("tax_amount", total_tax),
       ("total_amount", final_total)] },
   customerOutstanding + final_total)

/-- C1: the §8 scenario (one line, qty 2, rate 100, intrastate, CGST 9% +
SGST 9%): the unrounded total is 236 and the sales-order aggregator stores
grand_total 236 with round_off 0, but create_invoice persists grand_total 0
(the computed 236 goes to the non-column attribute total_amount), so the
claimed invariant grand_total = round(unrounded total) fails for invoices:
the stored grand_total 0 differs from round(236) = 236, even though
round_off (0) and balance_due (236) are stored and the customer outstanding
rises by 236. -/
theorem createInvoice_grand_total_not_stored :
    (pyRound (unroundedTotal false [⟨2, 100, 0, some ⟨9, 9, 18, 0⟩⟩] 0 0 0) : ℚ) = 236
      ∧ (salesOrderTotals false [⟨2, 100, 0, some ⟨9, 9, 18, 0⟩⟩] 0 0 0).grand_total = 236
      ∧ (salesOrderTotals false [⟨2, 100, 0, some ⟨9, 9, 18, 0⟩⟩] 0 0 0).round_off = 0
      ∧ (createInvoice false [⟨2, 100, 0, some ⟨9, 9, 18, 0⟩⟩] 0 0 0 0).1.row.grand_total = 0
      ∧ (createInvoice false [⟨2, 100, 0, some ⟨9, 9, 18, 0⟩⟩] 0 0 0 0).1.row.round_off = 0
      ∧ (createInvoice false [⟨2, 100, 0, some ⟨9, 9, 18, 0⟩⟩] 0 0 0 0).1.row.balance_due = 236
      ∧ (createInvoice false [⟨2, 100, 0, some ⟨9, 9, 18, 0⟩⟩] 0 0 0 0).2 = 236
      ∧ getPyAttr (createInvoice false [⟨2, 100, 0, some ⟨9, 9, 18, 0⟩⟩] 0 0 0 0).1
          "total_amount" = some 236
      ∧ (createInvoice false [⟨2, 100, 0, some ⟨9, 9, 18, 0⟩⟩] 0 0 0 0).1.row.grand_total
          ≠ (pyRound (unroundedTotal false [⟨2, 100, 0, some ⟨9, 9, 18, 0⟩⟩] 0 0 0) : ℚ) := by
  have h236 : unroundedTotal false [⟨2, 100, 0, some ⟨9, 9, 18, 0⟩⟩] 0 0 0 = 236 := by
    norm_num [unroundedTotal, sumLines, lineTax]
  have hr : (pyRound (236 : ℚ) : ℚ) = 236 := by norm_num [pyRound]
  refine ⟨by rw [h236]; exact_mod_cast hr, ?_, ?_, rfl, ?_, ?_, ?_, ?_, ?_⟩
  · show (pyRound (sumLines false _ _ + _ + _ + _ + _) : ℚ) = 236
    norm_num [salesOrderTotals, sumLines, lineTax, pyRound]
  · norm_num [salesOrderTotals, sumLines, lineTax, pyRound]
  · norm_num [createInvoice, sumLines, lineTax, pyRound]
  · norm_num [createInvoice, sumLines, lineTax, pyRound]
  · norm_num [createInvoice, sumLines, lineTax, pyRound]
  · norm_num [createInvoice, getPyAttr, sumLines, lineTax, itemDiscount, pyRound, List.lookup]
    rfl
  · rw [h236]
    norm_num [createInvoice, pyRound, InvoiceRow.new]

/-- Outcome of void_invoice (invoice.py:548-583). -/
inductive VoidOutcome where
  | validationError (msg : String)
  | attributeError
  | ok (inv : InvoiceRow) (customerOutstanding : ℚ)
deriving Repr, DecidableEq

/-- void_invoice (invoice.py:548-583): rejected when paid_amount > 0;
otherwise the handler reads invoice.total_amount to adjust the customer's
outstanding balance (line 565) — but total_amount is not a column of the
Invoice model (the column is grand_total), so on an invoice loaded from the
database this read raises AttributeError before any state change; had the
read succeeded, the handler would subtract it from the customer outstanding
and set the status to void. -/
def voidInvoice (inst : InvoiceInstance) (customerOutstanding : ℚ) : VoidOutcome :=
  if 0 < inst.row.paid_amount then .validationError "Cannot void invoice with payments"
  else
    match getPyAttr inst "total_amount" with
    | none => .attributeError
    | some t => .ok { inst.row with status := "void" } (customerOutstanding - t)

/-- C5: the claim says void succeeds exactly when paid_amount = 0,
subtracting grand_total from the customer's outstanding.  In the code the
success path reads the non-existent total_amount attribute, so for every
invoice loaded from the database (pyattrs = []) with paid_amount = 0 the
request crashes with AttributeError and nothing is changed; only the
paid_amount > 0 rejection behaves as claimed. -/
theorem voidInvoice_attribute_error (inst : InvoiceInstance) (out : ℚ)
    (hdb : inst.pyattrs = []) :
    (inst.row.paid_amount ≤ 0 → voidInvoice inst out = .attributeError)
      ∧ (0 < inst.row.paid_amount →
          voidInvoice inst out = .validationError "Cannot void invoice with payments") := by
  constructor
  · intro hpaid
    have hnl : ¬ 0 < inst.row.paid_amount := not_lt.2 hpaid
    simp [voidInvoice, hnl, getPyAttr, hdb, List.lookup]
  · intro hpaid
    simp [voidInvoice, hpaid]

/-- C5 (witness): a freshly loaded unpaid invoice (all columns at their
defaults): voiding crashes with AttributeError. -/
theorem voidInvoice_attribute_error_witness :
    (InvoiceInstance.mk InvoiceRow.new []).pyattrs = []
      ∧ ((InvoiceInstance.mk InvoiceRow.new []).row.paid_amount ≤ 0 →
          voidInvoice (InvoiceInstance.mk InvoiceRow.new []) 500 = .attributeError)
      ∧ (0 < (InvoiceInstance.mk InvoiceRow.new []).row.paid_amount →
          voidInvoice (InvoiceInstance.mk InvoiceRow.new []) 500
            = .validationError "Cannot void invoice with payments") :=
  ⟨rfl, (voidInvoice_attribute_error (InvoiceInstance.mk InvoiceRow.new []) 500 rfl).1,
    (voidInvoice_attribute_error (InvoiceInstance.mk InvoiceRow.new []) 500 rfl).2⟩

/-- The CreditNote columns used by apply (models/invoice.py:279-297). -/
structure CreditNoteRow where
  grand_total : ℚ
  adjusted_amount : ℚ
  balance_amount : ℚ
  status : String
deriving Repr, DecidableEq

/-- apply_credit_note (invoice.py:1045-1102): draft notes cannot be
applied; the requested amount defaults to the note's grand_total; a request
above the remaining credit (grand_total - adjusted_amount) is rejected
outright; otherwise the amount is capped at the invoice's stored
balance_due and applied: the note's adjusted/balance amounts and status
(adjusted when exhausted, else partial), the invoice's credit_note_amount,
recomputed balance_due and statuses, and the customer outstanding are all
updated.  Result: (note, invoice, customer outstanding, applied amount). -/
def applyCreditNote (cn : CreditNoteRow) (inv : InvoiceRow)
    (customerOutstanding : ℚ) (amountReq : Option ℚ) :
    Except String (CreditNoteRow × InvoiceRow × ℚ × ℚ) :=
  if cn.status = "draft" then .error "Credit note must be approved before applying"
  else
    let amount0 := amountReq.getD cn.grand_total
    if cn.grand_total - cn.adjusted_amount < amount0 then
      .error "Amount exceeds available credit"
    else
      let amount := if inv.balance_due < amount0 then inv.balance_due else amount0
      let adjusted := cn.adjusted_amount + amount
      let balance := cn.grand_total - adjusted
      let cn2 : CreditNoteRow :=
        ⟨cn.grand_total, adjusted, balance, if balance ≤ 0 then "adjusted" else "partial"⟩
      let credit2 := inv.credit_note_amount + amount
      let balance_due2 := inv.grand_total - inv.paid_amount - credit2
      let inv2 := { inv with
        credit_note_amount := credit2
        balance_due := balance_due2
        status := if balance_due2 ≤ 0 then "paid" else inv.status
        payment_status := if balance_due2 ≤ 0 then "paid" else "partial" }
      .ok (cn2, inv2, customerOutstanding - amount, amount)

/-- C4 (counterexample): an approved credit note of grand_total 50 applied
with a requested amount of 60 to an invoice with balance_due 30: the claim
says the adjustment is min(60, 50, 30) = 30, but the code rejects any
request above the note's remaining credit instead of capping it. -/
theorem applyCreditNote_reject_counterexample :
    applyCreditNote ⟨50, 0, 50, "approved"⟩
        { InvoiceRow.new with grand_total := 30, balance_due := 30, status := "sent" }
        100 (some 60)
      = .error "Amount exceeds available credit"
    ∧ min (min (60 : ℚ) (50 - 0)) 30 = 30 := by
  constructor
  · have h1 : ("approved" : String) ≠ "draft" := by decide
    have h2 : (50 : ℚ) < 60 := by norm_num
    simp [applyCreditNote, h1, h2]
  · norm_num

/-- C4 (amended): for a non-draft credit note, a request not exceeding the
note's remaining credit (a larger request is rejected with a validation
error and no change) adjusts exactly min(requested, invoice balance_due):
the amount is added to the note's adjusted_amount and the invoice's
credit_note_amount, subtracted from the customer outstanding, the note's
balance_amount becomes grand_total - adjusted (status adjusted when it
reaches 0, else partial), the invoice's balance_due is recomputed and it
becomes paid when that is at most 0 (else payment_status partial). -/
theorem applyCreditNote_capped (cn : CreditNoteRow) (inv : InvoiceRow) (out amount : ℚ)
    (hst : cn.status ≠ "draft")
    (havail : amount ≤ cn.grand_total - cn.adjusted_amount) :
    ∃ cn2 inv2 out2 applied,
      applyCreditNote cn inv out (some amount) = .ok (cn2, inv2, out2, applied)
        ∧ applied = min amount inv.balance_due
        ∧ cn2.adjusted_amount = cn.adjusted_amount + applied
        ∧ cn2.balance_amount = cn.grand_total - (cn.adjusted_amount + applied)
        ∧ cn2.status = (if cn2.balance_amount ≤ 0 then "adjusted" else "partial")
        ∧ inv2.credit_note_amount = inv.credit_note_amount + applied
        ∧ inv2.balance_due
            = inv.grand_total - inv.paid_amount - (inv.credit_note_amount + applied)
        ∧ inv2.status = (if inv2.balance_due ≤ 0 then "paid" else inv.status)
        ∧ inv2.payment_status = (if inv2.balance_due ≤ 0 then "paid" else "partial")
        ∧ out2 = out - applied := by
  have hnav : ¬ cn.grand_total - cn.adjusted_amount < amount := not_lt.2 havail
  have hmin : (if inv.balance_due < amount then inv.balance_due else amount)
      = min amount inv.balance_due := by
    rcases lt_or_le inv.balance_due amount with h | h
    · simp [h, min_eq_right h.le]
    · simp [not_lt.2 h, min_eq_left h]
  simp only [applyCreditNote, Option.getD_some, if_neg hst, if_neg hnav]
  exact ⟨_, _, _, _, rfl, hmin, rfl, rfl, rfl, rfl, rfl, rfl, rfl, rfl⟩

/-- C4 (witness): the spec's scenario — an approved credit note of
grand_total 50 applied in full to an invoice with balance_due 30 (the
applied amount is min(50, 30) = 30, leaving the note with balance 20 as
partial and the invoice paid). -/
theorem applyCreditNote_capped_witness :
    ((⟨50, 0, 50, "approved"⟩ : CreditNoteRow).status ≠ "draft")
      ∧ ((50 : ℚ) ≤ (⟨50, 0, 50, "approved"⟩ : CreditNoteRow).grand_total
          - (⟨50, 0, 50, "approved"⟩ : CreditNoteRow).adjusted_amount)
      ∧ (∃ cn2 inv2 out2 applied,
          applyCreditNote ⟨50, 0, 50, "approved"⟩
              { InvoiceRow.new with grand_total := 30, balance_due := 30, status := "sent" }
              100 (some 50)
            = .ok (cn2, inv2, out2, applied)
          ∧ applied = min 50
              ({ InvoiceRow.new with
                  grand_total := 30, balance_due := 30, status := "sent" } : InvoiceRow).balance_due
          ∧ cn2.adjusted_amount = (⟨50, 0, 50, "approved"⟩ : CreditNoteRow).adjusted_amount + applied
          ∧ cn2.balance_amount = (⟨50, 0, 50, "approved"⟩ : CreditNoteRow).grand_total
              - ((⟨50, 0, 50, "approved"⟩ : CreditNoteRow).adjusted_amount + applied)
          ∧ cn2.status = (if cn2.balance_amount ≤ 0 then "adjusted" else "partial")
          ∧ inv2.credit_note_amount
              = ({ InvoiceRow.new with
                  grand_total := 30, balance_due := 30,
                  status := "sent" } : InvoiceRow).credit_note_amount + applied
          ∧ inv2.balance_due
              = ({ InvoiceRow.new with
                    grand_total := 30, balance_due := 30,
                    status := "sent" } : InvoiceRow).grand_total
                - ({ InvoiceRow.new with
                    grand_total := 30, balance_due := 30,
                    status := "sent" } : InvoiceRow).paid_amount
                - (({ InvoiceRow.new with
                    grand_total := 30, balance_due := 30,
                    status := "sent" } : InvoiceRow).credit_note_amount + applied)
          ∧ inv2.status = (if inv2.balance_due ≤ 0 then "paid"
              else ({ InvoiceRow.new with
                  grand_total := 30, balance_due := 30, status := "sent" } : InvoiceRow).status)
          ∧ inv2.payment_status = (if inv2.balance_due ≤ 0 then "paid" else "partial")
          ∧ out2 = 100 - applied) :=
  ⟨by decide, by simp,
    applyCreditNote_capped ⟨50, 0, 50, "approved"⟩
      { InvoiceRow.new with grand_total := 30, balance_due := 30, status := "sent" }
      100 50 (by decide) (by simp)⟩

/-- The persisted Payment columns the claims touch
(models/payment.py:67-165).  The model has no allocated_amount and no
unallocated_amount column; hasBank records whether bank_account_id is set
(and the account exists). -/
structure PaymentRow where
  amount : ℚ
  status : String
  hasBank : Bool
deriving Repr, DecidableEq

/-- A SQLAlchemy Payment instance: persisted columns, the persisted
PaymentAllocation rows (document_id, allocated_amount) attached to it, and
the plain instance attributes created by assignments to non-column names
(allocated_amount, unallocated_amount at payment.py:371-372).  A payment
loaded from the database has pyattrs = []. -/
structure PaymentInstance where
  row : PaymentRow
  allocationRows : List (Nat × ℚ)
  pyattrs : List (String × ℚ)
deriving Repr, DecidableEq

/-- World state touched by a customer-receipt payment: the invoices of the
organization keyed by id, the customer's outstanding_amount, and the
optional bank account balance. -/
structure PayWorld where
  invoices : List (Nat × InvoiceRow)
  customerOutstanding : ℚ
  bank : Option ℚ
deriving Repr, DecidableEq

def lookupInv : List (Nat × InvoiceRow) → Nat → Option InvoiceRow
  | [], _ => none
  | e :: t, k => if e.1 = k then some e.2 else lookupInv t k

def updateInv : List (Nat × InvoiceRow) → Nat → InvoiceRow → List (Nat × InvoiceRow)
  | [], _, _ => []
  | e :: t, k, v => if e.1 = k then (k, v) :: updateInv t k v else e :: updateInv t k v

/-- Applying an allocation of a to an invoice (payment.py:296-306, and
identically at payment.py:456-465): paid_amount grows by a, balance_due is
recomputed from the stored grand_total, paid_amount and
credit_note_amount, and both statuses become paid when the recomputed
balance is at most 0, else partial. -/
def allocToInvoice (inv : InvoiceRow) (a : ℚ) : InvoiceRow :=
  let paid2 := inv.paid_amount + a
  let bal2 := inv.grand_total - paid2 - inv.credit_note_amount
  { inv with
    paid_amount := paid2
    balance_due := bal2
    status := if bal2 ≤ 0 then "paid" else "partial"
    payment_status := if bal2 ≤ 0 then "paid" else "partial" }

/-- The allocation loop of create_payment (payment.py:270-308, customer
branch): each request is capped at the target invoice's stored balance_due,
skipped when the capped amount is not positive or the invoice does not
exist, and otherwise persisted as one PaymentAllocation row while the
invoice is updated.  Returns the updated invoices, the allocation rows in
order, and the total allocated.  No cap against the payment amount is
applied. -/
def createPaymentLoop : List (Nat × InvoiceRow) → List (Nat × ℚ) →
    List (Nat × InvoiceRow) × List (Nat × ℚ) × ℚ
  | store, [] => (store, [], 0)
  | store, (iid, req) :: rest =>
      match lookupInv store iid with
      | none => createPaymentLoop store rest
      | some inv =>
          let a := if inv.balance_due < req then inv.balance_due else req
          if a ≤ 0 then createPaymentLoop store rest
          else
            let r := createPaymentLoop (updateInv store iid (allocToInvoice inv a)) rest
            (r.1, (iid, a) :: r.2.1, a + r.2.2)

/-- create_payment for a customer receipt (payment.py:205-378): the
allocation loop runs, the customer's outstanding_amount is reduced by the
full payment amount, the bank balance (when a bank account is given) grows
by it, and the computed allocated/unallocated totals are assigned to
attribute names that are not Payment columns (payment.py:371-372), so they
land in the instance attributes and are not persisted. -/
def createPayment (amount : ℚ) (reqs : List (Nat × ℚ)) (w : PayWorld)
    (useBank : Bool) : PaymentInstance × PayWorld :=
  let r := createPaymentLoop w.invoices reqs
  ({ row := { amount := amount, status := "completed", hasBank := useBank }
     allocationRows := r.2.1
     pyattrs := [("allocated_amount", r.2.2), ("unallocated_amount", amount - r.2.2)] },
   { invoices := r.1
     customerOutstanding := w.customerOutstanding - amount
     bank := if useBank then w.bank.map (· + amount) else w.bank })

/-- Outcome of allocate_payment (payment.py:409-474). -/
inductive AllocateOutcome where
  | attributeError
  | validationError (msg : String)
  | ok (p : PaymentInstance) (invoices : List (Nat × InvoiceRow))
deriving Repr, DecidableEq

/-- The allocation loop of allocate_payment (payment.py:427-467): skips
non-positive requests, caps the running total at the available amount
(breaking once exhausted), skips missing invoices, caps each amount at the
invoice's balance_due, and records a row while updating the invoice. -/
def allocateLoop (available : ℚ) : List (Nat × InvoiceRow) → List (Nat × ℚ) → ℚ →
    List (Nat × InvoiceRow) × List (Nat × ℚ) × ℚ
  | store, [], total => (store, [], total)
  | store, (iid, req) :: rest, total =>
      if req ≤ 0 then allocateLoop available store rest total
      else
        let a := if available < total + req then available - total else req
        if a ≤ 0 then (store, [], total)
        else
          match lookupInv store iid with
          | none => allocateLoop available store rest total
          | some inv =>
              let a2 := if inv.balance_due < a then inv.balance_due else a
              let r := allocateLoop available (updateInv store iid (allocToInvoice inv a2))
                rest (total + a2)
              (r.1, (iid, a2) :: r.2.1, r.2.2)

/-- allocate_payment (payment.py:409-474): the handler first reads
payment.unallocated_amount (line 418) and later payment.allocated_amount
(line 469); neither is a Payment column, so on a payment loaded from the
database both reads raise AttributeError.  When the attributes do exist
(only possible on the in-memory instance of the creating request), the loop
runs against the available amount and both totals are reassigned. -/
def allocatePayment (p : PaymentInstance) (reqs : List (Nat × ℚ))
    (invoices : List (Nat × InvoiceRow)) : AllocateOutcome :=
  match p.pyattrs.lookup "unallocated_amount" with
  | none => .attributeError
  | some available =>
      if available ≤ 0 then .validationError "No unallocated amount available"
      else
        let r := allocateLoop available invoices reqs 0
        match p.pyattrs.lookup "allocated_amount" with
        | none => .attributeError
        | some alloc0 =>
            .ok { p with
              allocationRows := p.allocationRows ++ r.2.1
              pyattrs := [("allocated_amount", alloc0 + r.2.2),
                ("unallocated_amount", p.row.amount - (alloc0 + r.2.2))] } r.1

/-- C6: a payment of amount 10 created with a single allocation request of
100 against an invoice with balance_due 100 gets a persisted
PaymentAllocation row of 100: the sum of its allocation rows (100) exceeds
payment.amount (10), the in-memory unallocated_amount is -90, nothing of it
is persisted (the Payment model has no such columns), and a later
allocate_payment call on the stored payment (pyattrs = []) raises
AttributeError when reading payment.unallocated_amount. -/
theorem createPayment_overallocation :
    ((createPayment 10 [(1, 100)]
        ⟨[(1, { InvoiceRow.new with grand_total := 100, balance_due := 100, status := "sent" })],
          100, none⟩ false).1.allocationRows.map (·.2)).sum = 100
      ∧ (10 : ℚ) < 100
      ∧ (createPayment 10 [(1, 100)]
          ⟨[(1, { InvoiceRow.new with grand_total := 100, balance_due := 100, status := "sent" })],
            100, none⟩ false).1.pyattrs.lookup "unallocated_amount" = some (-90)
      ∧ allocatePayment
          ⟨⟨10, "completed", false⟩, [(1, 100)], []⟩ [(2, 5)]
          [(1, { InvoiceRow.new with grand_total := 100, balance_due := 100, status := "paid" })]
          = .attributeError := by
  refine ⟨?_, by norm_num, ?_, rfl⟩
  · norm_num [createPayment, createPaymentLoop, lookupInv, updateInv, allocToInvoice]
  · norm_num [createPayment, createPaymentLoop, lookupInv, updateInv, allocToInvoice,
      List.lookup]
    rfl

/-- The reversal loop of cancel_payment (payment.py:492-501): for each
invoice allocation row, paid_amount shrinks by the allocated amount,
balance_due is recomputed from the stored columns, and only when the
recomputed balance is positive are the statuses reset — to partial when
some paid amount remains, else to sent/unpaid. -/
def cancelReverseLoop : List (Nat × InvoiceRow) → List (Nat × ℚ) → List (Nat × InvoiceRow)
  | store, [] => store
  | store, (iid, a) :: rest =>
      match lookupInv store iid with
      | none => cancelReverseLoop store rest
      | some inv =>
          let paid2 := inv.paid_amount - a
          let bal2 := inv.grand_total - paid2 - inv.credit_note_amount
          let inv2 := { inv with
            paid_amount := paid2
            balance_due := bal2
            status := if 0 < bal2 then (if 0 < paid2 then "partial" else "sent") else inv.status
            payment_status :=
              if 0 < bal2 then (if 0 < paid2 then "partial" else "unpaid")
              else inv.payment_status }
          cancelReverseLoop (updateInv store iid inv2) rest

/-- cancel_payment (payment.py:477-532) for a customer receipt: rejected
when already cancelled; otherwise every allocation row is reversed, the
customer's outstanding_amount grows back by the payment amount, the bank
balance (when one is linked) shrinks by it, and the payment status becomes
cancelled. -/
def cancelPayment (p : PaymentInstance) (w : PayWorld) :
    Except String (PaymentInstance × PayWorld) :=
  if p.row.status = "cancelled" then .error "Payment already cancelled"
  else
    .ok ({ p with row := { p.row with status := "cancelled" } },
      ⟨cancelReverseLoop w.invoices p.allocationRows,
        w.customerOutstanding + p.row.amount,
        if p.row.hasBank then w.bank.map (· - p.row.amount) else w.bank⟩)

/-- C3 (counterexample): an invoice still in status draft with balance_due
100 receives a payment allocation of 50 and the payment is then cancelled:
paid_amount, balance_due, the outstanding balance all return to their
initial values, but the invoice's status ends as sent, not the original
draft — the round trip does not restore the status. -/
theorem paymentRoundTrip_draft_status_counterexample :
    cancelPayment
        (createPayment 50 [(1, 50)]
          ⟨[(1, { InvoiceRow.new with grand_total := 100, balance_due := 100 })],
            100, none⟩ false).1
        (createPayment 50 [(1, 50)]
          ⟨[(1, { InvoiceRow.new with grand_total := 100, balance_due := 100 })],
            100, none⟩ false).2
      = .ok (⟨⟨50, "cancelled", false⟩, [(1, 50)],
              [("allocated_amount", 50), ("unallocated_amount", 0)]⟩,
            ⟨[(1, { InvoiceRow.new with
                grand_total := 100
                balance_due := 100
                status := "sent"
                payment_status := "unpaid" })], 100, none⟩)
      ∧ ({ InvoiceRow.new with grand_total := 100, balance_due := 100 } : InvoiceRow).status
          = "draft"
      ∧ ("sent" : String) ≠ "draft" := by
  refine ⟨?_, rfl, by decide⟩
  have h1 : ¬ (100 : ℚ) < 50 := by norm_num
  have h2 : ¬ (50 : ℚ) ≤ 0 := by norm_num
  norm_num [cancelPayment, createPayment, createPaymentLoop, cancelReverseLoop,
    lookupInv, updateInv, allocToInvoice, InvoiceRow.new, h1, h2,
    InvoiceRow.mk.injEq, PaymentRow.mk.injEq]
  intro h
  exact absurd h (by decide)

/-- Pre-payment consistency of an invoice on the normal lifecycle: the
stored balance_due agrees with the recomputation used by the payment
routes, and the status/payment_status match the payment classification
(partial once something is paid, else sent/unpaid). -/
def invConsistent (inv : InvoiceRow) : Prop :=
  inv.balance_due = inv.grand_total - inv.paid_amount - inv.credit_note_amount
    ∧ inv.status = (if 0 < inv.paid_amount then "partial" else "sent")
    ∧ inv.payment_status = (if 0 < inv.paid_amount then "partial" else "unpaid")

theorem lookupInv_update_same (store : List (Nat × InvoiceRow)) (k : Nat)
    (v0 v : InvoiceRow) (h : lookupInv store k = some v0) :
    lookupInv (updateInv store k v) k = some v := by
  induction store with
  | nil => simp [lookupInv] at h
  | cons e t ih =>
      by_cases he : e.1 = k
      · simp [lookupInv, updateInv, he]
      · simp [lookupInv, updateInv, he] at h ⊢
        exact ih h

theorem lookupInv_update_other (store : List (Nat × InvoiceRow)) (k k2 : Nat)
    (v : InvoiceRow) (h : k2 ≠ k) :
    lookupInv (updateInv store k v) k2 = lookupInv store k2 := by
  induction store with
  | nil => simp [updateInv]
  | cons e t ih =>
      by_cases he : e.1 = k
      · simp [lookupInv, updateInv, he, Ne.symm h]
        exact ih
      · simp only [updateInv, he, if_false, lookupInv]
        by_cases he2 : e.1 = k2 <;> simp [he2, ih]

theorem updateInv_keys (store : List (Nat × InvoiceRow)) (k : Nat) (v : InvoiceRow) :
    (updateInv store k v).map (·.1) = store.map (·.1) := by
  induction store with
  | nil => rfl
  | cons e t ih =>
      by_cases he : e.1 = k <;> simp [updateInv, he, ih]

theorem updateInv_not_mem (store : List (Nat × InvoiceRow)) (k : Nat) (v : InvoiceRow)
    (h : k ∉ store.map (·.1)) : updateInv store k v = store := by
  induction store with
  | nil => rfl
  | cons e t ih =>
      simp only [List.map_cons, List.mem_cons] at h
      push_neg at h
      simp [updateInv, Ne.symm h.1, ih h.2]

/-- With unique ids, writing back the exactly looked-up value is the
identity. -/
theorem updateInv_self (store : List (Nat × InvoiceRow)) (k : Nat) (v : InvoiceRow)
    (h : lookupInv store k = some v) (hnd : (store.map (·.1)).Nodup) :
    updateInv store k v = store := by
  induction store with
  | nil => rfl
  | cons e t ih =>
      simp only [List.map_cons, List.nodup_cons] at hnd
      by_cases he : e.1 = k
      · simp only [lookupInv, he, if_true] at h
        injection h with h2
        have ht : updateInv t k v = t := updateInv_not_mem t k v (he ▸ hnd.1)
        simp only [updateInv, he, if_true, ht]
        rw [← he, ← h2, Prod.mk.eta]
      · simp only [lookupInv, he, if_false] at h
        simp [updateInv, he, ih h hnd.2]

theorem updateInv_updateInv_same (store : List (Nat × InvoiceRow)) (k : Nat)
    (v v2 : InvoiceRow) : updateInv (updateInv store k v) k v2 = updateInv store k v2 := by
  induction store with
  | nil => rfl
  | cons e t ih =>
      by_cases he : e.1 = k <;> simp [updateInv, he, ih]

theorem updateInv_comm (store : List (Nat × InvoiceRow)) (k j : Nat)
    (v w : InvoiceRow) (h : k ≠ j) :
    updateInv (updateInv store k v) j w = updateInv (updateInv store j w) k v := by
  induction store with
  | nil => rfl
  | cons e t ih =>
      by_cases hek : e.1 = k
      · simp [updateInv, hek, h, Ne.symm h, ih]
      · by_cases hej : e.1 = j
        · simp [updateInv, hej, hek, h, Ne.symm h, ih]
        · simp [updateInv, hej, hek, ih]

theorem createPaymentLoop_cons_none (store : List (Nat × InvoiceRow)) (iid : Nat)
    (req : ℚ) (rest : List (Nat × ℚ)) (h : lookupInv store iid = none) :
    createPaymentLoop store ((iid, req) :: rest) = createPaymentLoop store rest := by
  simp [createPaymentLoop, h]

theorem createPaymentLoop_cons_skip (store : List (Nat × InvoiceRow)) (iid : Nat)
    (req : ℚ) (rest : List (Nat × ℚ)) (inv : InvoiceRow)
    (h : lookupInv store iid = some inv)
    (ha : (if inv.balance_due < req then inv.balance_due else req) ≤ 0) :
    createPaymentLoop store ((iid, req) :: rest) = createPaymentLoop store rest := by
  simp [createPaymentLoop, h, ha]

theorem createPaymentLoop_cons_alloc (store : List (Nat × InvoiceRow)) (iid : Nat)
    (req : ℚ) (rest : List (Nat × ℚ)) (inv : InvoiceRow)
    (h : lookupInv store iid = some inv)
    (ha : ¬ (if inv.balance_due < req then inv.balance_due else req) ≤ 0) :
    createPaymentLoop store ((iid, req) :: rest)
      = ((createPaymentLoop (updateInv store iid
            (allocToInvoice inv (if inv.balance_due < req then inv.balance_due else req)))
            rest).1,
          (iid, if inv.balance_due < req then inv.balance_due else req) ::
            (createPaymentLoop (updateInv store iid
              (allocToInvoice inv (if inv.balance_due < req then inv.balance_due else req)))
              rest).2.1,
          (if inv.balance_due < req then inv.balance_due else req) +
            (createPaymentLoop (updateInv store iid
              (allocToInvoice inv (if inv.balance_due < req then inv.balance_due else req)))
              rest).2.2) := by
  simp [createPaymentLoop, h, ha]

theorem cancelReverseLoop_cons_none (store : List (Nat × InvoiceRow)) (iid : Nat)
    (a : ℚ) (rest : List (Nat × ℚ)) (h : lookupInv store iid = none) :
    cancelReverseLoop store ((iid, a) :: rest) = cancelReverseLoop store rest := by
  simp [cancelReverseLoop, h]

/-- The invoice record written back by one cancel reversal step. -/
def reversedInvoice (inv : InvoiceRow) (a : ℚ) : InvoiceRow :=
  { inv with
    paid_amount := inv.paid_amount - a
    balance_due := inv.grand_total - (inv.paid_amount - a) - inv.credit_note_amount
    status :=
      if 0 < inv.grand_total - (inv.paid_amount - a) - inv.credit_note_amount then
        (if 0 < inv.paid_amount - a then "partial" else "sent")
      else inv.status
    payment_status :=
      if 0 < inv.grand_total - (inv.paid_amount - a) - inv.credit_note_amount then
        (if 0 < inv.paid_amount - a then "partial" else "unpaid")
      else inv.payment_status }

theorem cancelReverseLoop_cons_some (store : List (Nat × InvoiceRow)) (iid : Nat)
    (a : ℚ) (rest : List (Nat × ℚ)) (inv : InvoiceRow)
    (h : lookupInv store iid = some inv) :
    cancelReverseLoop store ((iid, a) :: rest)
      = cancelReverseLoop (updateInv store iid (reversedInvoice inv a)) rest := by
  simp [cancelReverseLoop, h, reversedInvoice]

/-- Every allocation row written by the create loop references one of the
requested invoice ids. -/
theorem createPaymentLoop_rows_ids (reqs : List (Nat × ℚ)) :
    ∀ store j, j ∈ (createPaymentLoop store reqs).2.1.map (·.1) → j ∈ reqs.map (·.1) := by
  induction reqs with
  | nil => intro store j hj; simp [createPaymentLoop] at hj
  | cons r rest ih =>
      intro store j hj
      rcases r with ⟨iid, req⟩
      cases hcase : lookupInv store iid with
      | none =>
          rw [createPaymentLoop_cons_none _ _ _ _ hcase] at hj
          exact List.mem_cons_of_mem _ (ih store j hj)
      | some inv =>
          by_cases ha : (if inv.balance_due < req then inv.balance_due else req) ≤ 0
          · rw [createPaymentLoop_cons_skip _ _ _ _ _ hcase ha] at hj
            exact List.mem_cons_of_mem _ (ih store j hj)
          · rw [createPaymentLoop_cons_alloc _ _ _ _ _ hcase ha] at hj
            simp only [List.map_cons, List.mem_cons] at hj
            rcases hj with rfl | hj
            · simp
            · exact List.mem_cons_of_mem _ (ih _ j hj)

/-- Invoices not referenced by any request are untouched by the create
loop. -/
theorem createPaymentLoop_lookup_not_mem (reqs : List (Nat × ℚ)) :
    ∀ store j, j ∉ reqs.map (·.1) →
      lookupInv (createPaymentLoop store reqs).1 j = lookupInv store j := by
  induction reqs with
  | nil => intro store j _; rfl
  | cons r rest ih =>
      intro store j hj
      rcases r with ⟨iid, req⟩
      simp only [List.map_cons, List.mem_cons] at hj
      push_neg at hj
      cases hcase : lookupInv store iid with
      | none =>
          rw [createPaymentLoop_cons_none _ _ _ _ hcase]
          exact ih store j hj.2
      | some inv =>
          by_cases ha : (if inv.balance_due < req then inv.balance_due else req) ≤ 0
          · rw [createPaymentLoop_cons_skip _ _ _ _ _ hcase ha]
            exact ih store j hj.2
          · rw [createPaymentLoop_cons_alloc _ _ _ _ _ hcase ha]
            rw [ih _ j hj.2, lookupInv_update_other _ _ _ _ hj.1]

/-- Reversing rows that do not reference an id commutes with updating that
id. -/
theorem cancelReverseLoop_update_comm (rows : List (Nat × ℚ)) :
    ∀ store iid v, iid ∉ rows.map (·.1) →
      cancelReverseLoop (updateInv store iid v) rows
        = updateInv (cancelReverseLoop store rows) iid v := by
  induction rows with
  | nil => intro store iid v _; rfl
  | cons r rest ih =>
      intro store iid v hid
      rcases r with ⟨jid, a⟩
      simp only [List.map_cons, List.mem_cons] at hid
      push_neg at hid
      cases hcase : lookupInv store jid with
      | none =>
          have h2 : lookupInv (updateInv store iid v) jid = none := by
            rw [lookupInv_update_other _ _ _ _ (Ne.symm hid.1)]
            exact hcase
          rw [cancelReverseLoop_cons_none _ _ _ _ h2, cancelReverseLoop_cons_none _ _ _ _ hcase]
          exact ih _ iid v hid.2
      | some inv =>
          have h2 : lookupInv (updateInv store iid v) jid = some inv := by
            rw [lookupInv_update_other _ _ _ _ (Ne.symm hid.1)]
            exact hcase
          rw [cancelReverseLoop_cons_some _ _ _ _ _ h2, cancelReverseLoop_cons_some _ _ _ _ _ hcase]
          rw [updateInv_comm _ iid jid _ _ hid.1]
          exact ih _ iid v hid.2

/-- Reversing an allocation restores the invoice exactly, provided the
invoice satisfied the pre-payment consistency (stored balance matches the
recomputation and statuses match the payment classification) and the
allocated amount was positive and within the balance. -/
theorem reversedInvoice_allocToInvoice (inv : InvoiceRow) (a : ℚ)
    (hc : invConsistent inv) (ha : 0 < a) (hab : a ≤ inv.balance_due) :
    reversedInvoice (allocToInvoice inv a) a = inv := by
  obtain ⟨hb, hs, hp⟩ := hc
  have hpa : inv.paid_amount + a - a = inv.paid_amount := by ring
  have hbd : inv.grand_total - inv.paid_amount - inv.credit_note_amount
      = inv.balance_due := hb.symm
  have hpos : 0 < inv.balance_due := lt_of_lt_of_le ha hab
  simp only [reversedInvoice, allocToInvoice]
  simp only [hpa, hbd, if_pos hpos]
  rw [← hs, ← hp]

/-- Round trip on the invoice store: running the create-payment allocation
loop and then reversing the produced allocation rows restores the store
exactly, given unique invoice ids, pairwise distinct requested ids, and
pre-payment consistency of the requested invoices. -/
theorem createCancel_roundtrip_store (reqs : List (Nat × ℚ)) :
    ∀ store, (store.map (·.1)).Nodup → (reqs.map (·.1)).Nodup →
    (∀ iid ∈ reqs.map (·.1), ∀ inv, lookupInv store iid = some inv → invConsistent inv) →
    cancelReverseLoop (createPaymentLoop store reqs).1 (createPaymentLoop store reqs).2.1
      = store := by
  induction reqs with
  | nil => intro store _ _ _; rfl
  | cons r rest ih =>
      intro store hnd hrd hcons
      rcases r with ⟨iid, req⟩
      simp only [List.map_cons, List.nodup_cons] at hrd
      cases hcase : lookupInv store iid with
      | none =>
          rw [createPaymentLoop_cons_none _ _ _ _ hcase]
          exact ih store hnd hrd.2 (fun j hj inv h => hcons j (by simp [hj]) inv h)
      | some inv =>
          by_cases ha : (if inv.balance_due < req then inv.balance_due else req) ≤ 0
          · rw [createPaymentLoop_cons_skip _ _ _ _ _ hcase ha]
            exact ih store hnd hrd.2 (fun j hj inv2 h => hcons j (by simp [hj]) inv2 h)
          · rw [createPaymentLoop_cons_alloc _ _ _ _ _ hcase ha]
            have hconsInv : invConsistent inv := hcons iid (by simp) inv hcase
            have hapos : 0 < (if inv.balance_due < req then inv.balance_due else req) :=
              not_le.1 ha
            have hab : (if inv.balance_due < req then inv.balance_due else req)
                ≤ inv.balance_due := by
              rcases lt_or_le inv.balance_due req with h | h
              · simp [h]
              · simp [not_lt.2 h]
                exact h
            have hlook2 : lookupInv
                (createPaymentLoop (updateInv store iid
                  (allocToInvoice inv (if inv.balance_due < req then inv.balance_due else req)))
                  rest).1 iid
                = some (allocToInvoice inv
                    (if inv.balance_due < req then inv.balance_due else req)) := by
              rw [createPaymentLoop_lookup_not_mem rest _ iid hrd.1]
              exact lookupInv_update_same store iid inv _ hcase
            rw [cancelReverseLoop_cons_some _ _ _ _ _ hlook2]
            rw [reversedInvoice_allocToInvoice inv _ hconsInv hapos hab]
            have hidnot : iid ∉ (createPaymentLoop (updateInv store iid
                (allocToInvoice inv (if inv.balance_due < req then inv.balance_due else req)))
                rest).2.1.map (·.1) :=
              fun hmem => hrd.1 (createPaymentLoop_rows_ids rest _ iid hmem)
            rw [cancelReverseLoop_update_comm _ _ _ _ hidnot]
            have hnd2 : ((updateInv store iid
                (allocToInvoice inv (if inv.balance_due < req then inv.balance_due else req))).map
                  (·.1)).Nodup := by
              rw [updateInv_keys]
              exact hnd
            have hcons2 : ∀ j ∈ rest.map (·.1), ∀ inv2,
                lookupInv (updateInv store iid
                  (allocToInvoice inv (if inv.balance_due < req then inv.balance_due else req))) j
                  = some inv2 → invConsistent inv2 := by
              intro j hj inv2 h
              have hji : j ≠ iid := fun h2 => hrd.1 (h2 ▸ hj)
              rw [lookupInv_update_other _ _ _ _ hji] at h
              exact hcons j (by simp [hj]) inv2 h
            rw [ih _ hnd2 hrd.2 hcons2]
            rw [updateInv_updateInv_same]
            exact updateInv_self store iid inv hcase hnd

/-- C3 (amended round trip): creating a customer-receipt payment with
allocations to invoices and then cancelling it restores the world exactly —
every invoice row (paid_amount, balance_due, statuses), the customer's
outstanding_amount and the bank balance return to their initial values —
provided invoice ids are unique, the allocation requests reference pairwise
distinct invoices, and each requested invoice satisfies the pre-payment
consistency: stored balance_due = grand_total - paid_amount -
credit_note_amount and status/payment_status equal to the payment
classification (partial/partial when paid_amount > 0, else sent/unpaid);
the cancelled payment keeps its amount and ends cancelled. -/
theorem paymentRoundTrip_restores (amount : ℚ) (reqs : List (Nat × ℚ)) (w : PayWorld)
    (useBank : Bool)
    (hnd : (w.invoices.map (·.1)).Nodup)
    (hrd : (reqs.map (·.1)).Nodup)
    (hcons : ∀ iid ∈ reqs.map (·.1), ∀ inv,
      lookupInv w.invoices iid = some inv → invConsistent inv) :
    ∃ p2 w2,
      cancelPayment (createPayment amount reqs w useBank).1
          (createPayment amount reqs w useBank).2
          = .ok (p2, w2)
        ∧ w2.invoices = w.invoices
        ∧ w2.customerOutstanding = w.customerOutstanding
        ∧ w2.bank = w.bank
        ∧ p2.row.status = "cancelled"
        ∧ p2.row.amount = amount := by
  have h1 : cancelReverseLoop (createPaymentLoop w.invoices reqs).1
      (createPaymentLoop w.invoices reqs).2.1 = w.invoices :=
    createCancel_roundtrip_store reqs w.invoices hnd hrd hcons
  have h2 : w.customerOutstanding - amount + amount = w.customerOutstanding := by ring
  have h3 : (if useBank then
        (if useBank then w.bank.map (· + amount) else w.bank).map (· - amount)
      else (if useBank then w.bank.map (· + amount) else w.bank)) = w.bank := by
    cases useBank with
    | false => simp
    | true =>
        cases w.bank with
        | none => simp
        | some b => simp
  have hne : ¬ ("completed" : String) = "cancelled" := by decide
  refine ⟨⟨⟨amount, "cancelled", useBank⟩, (createPaymentLoop w.invoices reqs).2.1,
      [("allocated_amount", (createPaymentLoop w.invoices reqs).2.2),
        ("unallocated_amount", amount - (createPaymentLoop w.invoices reqs).2.2)]⟩,
    ⟨cancelReverseLoop (createPaymentLoop w.invoices reqs).1
        (createPaymentLoop w.invoices reqs).2.1,
      w.customerOutstanding - amount + amount,
      if useBank then (if useBank then w.bank.map (· + amount) else w.bank).map (· - amount)
        else (if useBank then w.bank.map (· + amount) else w.bank)⟩,
    ?_, h1, h2, h3, rfl, rfl⟩
  rfl

/-- C3 (witness): a consistent sent invoice with balance 100, a payment of
50 allocated to it, created and then cancelled. -/
theorem paymentRoundTrip_restores_witness :
    (((⟨[(1, { InvoiceRow.new with grand_total := 100, balance_due := 100, status := "sent" })],
        100, none⟩ : PayWorld).invoices.map (·.1)).Nodup)
      ∧ (([((1 : Nat), (50 : ℚ))].map (·.1)).Nodup)
      ∧ (∀ iid ∈ [((1 : Nat), (50 : ℚ))].map (·.1), ∀ inv,
          lookupInv (⟨[(1, { InvoiceRow.new with
              grand_total := 100, balance_due := 100, status := "sent" })],
            100, none⟩ : PayWorld).invoices iid = some inv → invConsistent inv)
      ∧ (∃ p2 w2,
          cancelPayment
              (createPayment 50 [(1, 50)]
                ⟨[(1, { InvoiceRow.new with
                    grand_total := 100, balance_due := 100, status := "sent" })],
                  100, none⟩ false).1
              (createPayment 50 [(1, 50)]
                ⟨[(1, { InvoiceRow.new with
                    grand_total := 100, balance_due := 100, status := "sent" })],
                  100, none⟩ false).2
              = .ok (p2, w2)
            ∧ w2.invoices = (⟨[(1, { InvoiceRow.new with
                grand_total := 100, balance_due := 100, status := "sent" })],
                100, none⟩ : PayWorld).invoices
            ∧ w2.customerOutstanding = (⟨[(1, { InvoiceRow.new with
                grand_total := 100, balance_due := 100, status := "sent" })],
                100, none⟩ : PayWorld).customerOutstanding
            ∧ w2.bank = (⟨[(1, { InvoiceRow.new with
                grand_total := 100, balance_due := 100, status := "sent" })],
                100, none⟩ : PayWorld).bank
            ∧ p2.row.status = "cancelled"
            ∧ p2.row.amount = 50) :=
  ⟨by decide, by decide,
    by simp [lookupInv, invConsistent, InvoiceRow.new],
    paymentRoundTrip_restores 50 [(1, 50)]
      ⟨[(1, { InvoiceRow.new with grand_total := 100, balance_due := 100, status := "sent" })],
        100, none⟩ false
      (by decide) (by decide)
      (by simp [lookupInv, invConsistent, InvoiceRow.new])⟩
